import Mathlib

/-!
Verification of the boot-time memory-topology and platform-discovery pipeline
in src/platform/pc/platform.c, and of the FAT end-of-chain predicate in
src/lib/fs/fat/fat_fs.h.

The embedding is shallow: machine integers are Nat with explicit `% 2 ^ 64`
(resp. `% 2 ^ 32`) wherever the C code's fixed-width arithmetic can wrap, and
the per-record loop of platform_parse_multiboot_info is a structural recursion
over the list of multiboot memory-map records.
-/

namespace LK

/-- Page size on x86 (PAGE_SIZE, 4 KiB). -/
def PAGE_SIZE : Nat := 4096

/-- One mebibyte (the MB unit macro). -/
def MB : Nat := 1024 * 1024

/-- One gibibyte (the GB unit macro). -/
def GB : Nat := 1024 * 1024 * 1024

/-- Modulus of 64-bit unsigned arithmetic. -/
def U64 : Nat := 2 ^ 64

/-- MAX_PHYSICAL_RAM with ARCH_X86_64 (platform.c line 55): 64 GiB. -/
def MAX_PHYSICAL_RAM_X86_64 : Nat := 64 * GB

/-- MAX_PHYSICAL_RAM with ARCH_X86_32 (platform.c line 57): 1 GiB. -/
def MAX_PHYSICAL_RAM_X86_32 : Nat := 1 * GB

/-- NUM_ARENAS (platform.c line 89): capacity of the static mem_arena table. -/
def NUM_ARENAS : Nat := 16

/-- DEFAULT_MEMEND (platform.c line 43): 16 MiB. -/
def DEFAULT_MEMEND : Nat := 16 * 1024 * 1024

/-- PMM_ARENA_FLAG_KMAP bit (declared in kernel/vm.h, outside src/; its exact
numeric value is immaterial to the claims, only its identity). -/
def PMM_ARENA_FLAG_KMAP : Nat := 1

/-- MB_MMAP_TYPE_AVAILABLE: multiboot memory-map type code 1 = available RAM. -/
def MB_MMAP_TYPE_AVAILABLE : Nat := 1

/-- PAGE_ALIGN(x): lk macro ROUNDUP(x, PAGE_SIZE) =
((x + (PAGE_SIZE-1)) AND NOT (PAGE_SIZE-1)), computed on uint64_t, so the
addition wraps modulo 2^64 (platform.c line 136). -/
def PAGE_ALIGN (x : Nat) : Nat :=
  (x + (PAGE_SIZE - 1)) % U64 / PAGE_SIZE * PAGE_SIZE

/-- ROUNDDOWN(a, b) = (a AND NOT (b-1)) for power-of-two b (platform.c line 140). -/
def ROUNDDOWN (a b : Nat) : Nat := a / b * b

/-- One multiboot memory-map record (hw/multiboot.h layout, as consumed at
platform.c lines 122-127): four 32-bit halves plus a type code. -/
structure memory_map_t where
  base_addr_low : Nat
  base_addr_high : Nat
  length_low : Nat
  length_high : Nat
  type : Nat
deriving DecidableEq

/-- 64-bit base assembled from the two 32-bit halves (platform.c line 122);
the `% 2 ^ 32` encodes the uint32_t type of the struct fields. -/
def mmap_base (m : memory_map_t) : Nat :=
  m.base_addr_low % 2 ^ 32 + m.base_addr_high % 2 ^ 32 * 2 ^ 32

/-- 64-bit length assembled from the two 32-bit halves (platform.c line 123). -/
def mmap_length (m : memory_map_t) : Nat :=
  m.length_low % 2 ^ 32 + m.length_high % 2 ^ 32 * 2 ^ 32

/-- pmm_arena_t, restricted to the fields platform.c writes
(lines 161-165 and 210-216). -/
structure pmm_arena_t where
  name : String
  base : Nat
  size : Nat
  priority : Nat
  flags : Nat
deriving DecidableEq

/-- Value of the local variable `base` after the alignment step at
platform.c lines 135-139. -/
def aligned_base (m : memory_map_t) : Nat := PAGE_ALIGN (mmap_base m)

/-- Value of the local variable `length` after the alignment steps at
platform.c lines 135-140: shrunk by the forward shift of the base (only when
the aligned base moved up), then rounded down to a page multiple. -/
def aligned_length (m : memory_map_t) : Nat :=
  ROUNDDOWN
    (if mmap_base m < aligned_base m
     then mmap_length m - (aligned_base m - mmap_base m)
     else mmap_length m)
    PAGE_SIZE

/-- Body of the mmap loop of platform_parse_multiboot_info for one record
(platform.c lines 127-165): emit at most one arena.  The `end` of the clip
test at line 153 is the uint64_t sum, hence the `% U64`. -/
def parse_mmap_record (maxRam : Nat) (m : memory_map_t) : Option pmm_arena_t :=
  if m.type = MB_MMAP_TYPE_AVAILABLE then
    if mmap_length m < PAGE_SIZE * 2 then none
    else if aligned_base m < 1 * MB then none
    else if maxRam ≤ aligned_base m then none
    else
      some { name := "memory"
             base := aligned_base m
             size := if maxRam < (aligned_base m + aligned_length m) % U64
                     then maxRam - aligned_base m
                     else aligned_length m
             priority := 1
             flags := PMM_ARENA_FLAG_KMAP }
  else none

/-- The mmap loop of platform_parse_multiboot_info (platform.c lines 120-171),
carrying the running arena count `found`; the loop breaks as soon as the
count reaches NUM_ARENAS (lines 167-169). -/
def parse_mmap_loop (maxRam : Nat) : List memory_map_t → Nat → List pmm_arena_t
  | [], _ => []
  | m :: ms, found =>
    match parse_mmap_record maxRam m with
    | none => parse_mmap_loop maxRam ms found
    | some a =>
      if found + 1 = NUM_ARENAS then [a]
      else a :: parse_mmap_loop maxRam ms (found + 1)

/-- All arenas the per-record filter would emit, ignoring the capacity cap. -/
def surviving_arenas (maxRam : Nat) (ms : List memory_map_t) : List pmm_arena_t :=
  ms.filterMap (parse_mmap_record maxRam)

/-- Multiboot info structure, restricted to the fields platform.c reads:
the three flag bits it tests and the memory-map record array.  A null
_multiboot_info pointer is modelled as `Option.none` at the call site. -/
structure multiboot_info_t where
  has_mem_size : Bool
  has_mmap : Bool
  has_framebuffer : Bool
  mmap : List memory_map_t
deriving DecidableEq

/-- platform_parse_multiboot_info (platform.c lines 96-190), as the list of
arenas written into mem_arena: empty when the multiboot pointer is null
(line 100), when the MB_INFO_MMAP flag is clear (line 115), or when no
record survives the filter. -/
def platform_parse_multiboot_info (maxRam : Nat)
    (mbi : Option multiboot_info_t) : List pmm_arena_t :=
  match mbi with
  | none => []
  | some info =>
    if info.has_mmap then parse_mmap_loop maxRam info.mmap 0 else []

/-- The synthetic default arena (platform.c lines 210-216). -/
def default_arena (membase : Nat) : pmm_arena_t :=
  { name := "memory"
    base := membase
    size := DEFAULT_MEMEND
    priority := 1
    flags := PMM_ARENA_FLAG_KMAP }

/-- State of the external pmm collaborator during the handoff loop:
the sequence of pmm_add_arena calls made so far, and the uint64_t
total_mem accumulator (platform.c lines 224-228). -/
structure pmm_state where
  add_arena_calls : List pmm_arena_t
  total_mem : Nat
deriving DecidableEq

/-- External pmm_add_arena call (platform.c line 226), modelled as recording
the argument on the call trace. -/
def pmm_add_arena (s : pmm_state) (a : pmm_arena_t) : pmm_state :=
  { s with add_arena_calls := s.add_arena_calls ++ [a] }

/-- The registration loop of platform_early_init (platform.c lines 224-228):
one pmm_add_arena call per arena, in order, accumulating total_mem in
uint64_t arithmetic. -/
def platform_register_arenas (arenas : List pmm_arena_t) : pmm_state :=
  arenas.foldl
    (fun s a =>
      let s2 := pmm_add_arena s a
      { s2 with total_mem := (s2.total_mem + a.size) % U64 })
    { add_arena_calls := [], total_mem := 0 }

/-- Result of the memory part of platform_early_init: the arena list actually
registered, whether the default-arena warning path was taken, and the final
pmm handoff state. -/
structure EarlyInitResult where
  arenas : List pmm_arena_t
  used_default : Bool
  pmm : pmm_state
deriving DecidableEq

/-- Memory part of platform_early_init (platform.c lines 205-229):
parse multiboot, fall back to the single default arena (with a warning)
when zero arenas were found, then register every arena with the pmm. -/
def platform_early_init (maxRam membase : Nat)
    (mbi : Option multiboot_info_t) : EarlyInitResult :=
  let found := platform_parse_multiboot_info maxRam mbi
  let arenas := if found.length = 0 then [default_arena membase] else found
  { arenas := arenas
    used_default := found.length = 0
    pmm := platform_register_arenas arenas }

/-- Sum of the sizes of a list of arenas (the mathematical, unwrapped sum). -/
def total_size (l : List pmm_arena_t) : Nat := (l.map pmm_arena_t.size).sum

/-- The DEBUG_ASSERT(end > base) site at platform.c line 155: the branch
condition is the conjunction of the guards on the path to it (Available
type, length at least two pages, aligned base at least 1 MiB and below the
ceiling, wrapped end above the ceiling); at that site `end` has just been
set to maxRam, so the asserted condition is `aligned_base m < maxRam`. -/
def debug_assert_end_gt_base (maxRam : Nat) (m : memory_map_t) : Bool :=
  if m.type = MB_MMAP_TYPE_AVAILABLE ∧ PAGE_SIZE * 2 ≤ mmap_length m ∧
     1 * MB ≤ aligned_base m ∧ aligned_base m < maxRam ∧
     maxRam < (aligned_base m + aligned_length m) % U64
  then decide (aligned_base m < maxRam)
  else true

/-- First MCFG descriptor entry (struct acpi_mcfg_entry fields read at
platform.c lines 276-280). -/
structure acpi_mcfg_entry where
  base_address : Nat
  segment : Nat
  start_bus : Nat
  end_bus : Nat
deriving DecidableEq

/-- MCFG table as consumed by platform_init: its declared header length and
the first descriptor entry located right after the table header
(platform.c lines 272-275). -/
structure acpi_mcfg_table where
  header_length : Nat
  first_entry : acpi_mcfg_entry
deriving DecidableEq

/-- Modelled from the spec: sizeof(struct acpi_mcfg_table) — the ACPI system
description header plus the 8 reserved bytes — from lib/acpi_lite headers,
which are outside src/.  Only the shape of the comparison at platform.c
line 274 matters to the claims, not the numeric value. -/
def sizeof_acpi_mcfg_table : Nat := 44

/-- Modelled from the spec: sizeof(struct acpi_mcfg_entry), one MCFG
descriptor (segment, start bus, end bus, base address, reserved), from
lib/acpi_lite headers, outside src/. -/
def sizeof_acpi_mcfg_entry : Nat := 16

/-- Environment of the PCI part of platform_init: the compile-time
WITH_DEV_BUS_PCI toggle and the outcomes of the external collaborators
(acpi_lite_init, acpi_get_table_by_sig for MCFG, pci_init_ecam on the first
descriptor, pci_init_legacy). -/
structure pci_world where
  with_dev_bus_pci : Bool
  acpi_lite_init_ok : Bool
  mcfg : Option acpi_mcfg_table
  pci_init_ecam_ok : Bool
  pci_init_legacy_ok : Bool
deriving DecidableEq

/-- Observable PCI-related calls made by platform_init, with the status each
initializer returned. -/
inductive pci_call where
  | init_ecam (base_address segment start_bus end_bus : Nat) (ok : Bool)
  | init_legacy (ok : Bool)
  | bus_mgr_init
deriving DecidableEq

/-- PCI-relevant call trace of platform_init (platform.c lines 258-296):
under WITH_DEV_BUS_PCI, try the ECAM aperture from the first MCFG descriptor
when acpi init succeeded, the MCFG table is present and its declared length
fits the header plus one entry; on ECAM success initialize the bus manager,
otherwise fall back to pci_init_legacy and initialize the bus manager iff
that succeeds. -/
def platform_init (w : pci_world) : List pci_call :=
  if w.with_dev_bus_pci then
    let step1 : List pci_call × Bool :=
      if w.acpi_lite_init_ok then
        match w.mcfg with
        | some table =>
          if sizeof_acpi_mcfg_table + sizeof_acpi_mcfg_entry ≤ table.header_length then
            let e := table.first_entry
            let c := pci_call.init_ecam e.base_address e.segment e.start_bus
                       e.end_bus w.pci_init_ecam_ok
            if w.pci_init_ecam_ok then ([c, pci_call.bus_mgr_init], true)
            else ([c], false)
          else ([], false)
        | none => ([], false)
      else ([], false)
    if step1.2 then step1.1
    else
      step1.1 ++
        (if w.pci_init_legacy_ok then [pci_call.init_legacy true, pci_call.bus_mgr_init]
         else [pci_call.init_legacy false])
  else []

/-- Number of pci_bus_mgr_init calls in a trace. -/
def bus_mgr_init_count : List pci_call → Nat
  | [] => 0
  | pci_call.bus_mgr_init :: l => 1 + bus_mgr_init_count l
  | pci_call.init_ecam _ _ _ _ _ :: l => bus_mgr_init_count l
  | pci_call.init_legacy _ :: l => bus_mgr_init_count l

/-- Whether a call is an initializer that returned success. -/
def is_successful_init : pci_call → Bool
  | pci_call.init_ecam _ _ _ _ ok => ok
  | pci_call.init_legacy ok => ok
  | pci_call.bus_mgr_init => false

/-- Checks that every bus_mgr_init call in the trace immediately follows an
initializer call that returned success; the Bool argument carries whether
the previous call was such an initializer. -/
def bus_mgr_follows_success : Bool → List pci_call → Bool
  | _, [] => true
  | prev, pci_call.bus_mgr_init :: l => prev && bus_mgr_follows_success false l
  | _, pci_call.init_ecam _ _ _ _ ok :: l => bus_mgr_follows_success ok l
  | _, pci_call.init_legacy ok :: l => bus_mgr_follows_success ok l

/-- Whether a call is a pci_init_ecam attempt. -/
def is_ecam_call : pci_call → Bool
  | pci_call.init_ecam _ _ _ _ _ => true
  | _ => false

/-- Whether a call is a pci_init_ecam attempt that failed. -/
def is_failed_ecam_call : pci_call → Bool
  | pci_call.init_ecam _ _ _ _ ok => !ok
  | _ => false

/-- Whether a call is a pci_init_legacy attempt. -/
def is_legacy_call : pci_call → Bool
  | pci_call.init_legacy _ => true
  | _ => false

/-- EOF_CLUSTER_BASE (fat_fs.h line 81). -/
def EOF_CLUSTER_BASE : Nat := 0x0ffffff8

/-- EOF_CLUSTER (fat_fs.h line 82). -/
def EOF_CLUSTER : Nat := 0x0fffffff

/-- is_eof_cluster (fat_fs.h lines 84-86). -/
def is_eof_cluster (cluster : Nat) : Bool :=
  decide (EOF_CLUSTER_BASE ≤ cluster) && decide (cluster ≤ EOF_CLUSTER)

lemma aligned_base_mod (m : memory_map_t) : aligned_base m % PAGE_SIZE = 0 := by
  unfold aligned_base PAGE_ALIGN
  exact Nat.mul_mod_left _ _

lemma aligned_length_mod (m : memory_map_t) : aligned_length m % PAGE_SIZE = 0 := by
  unfold aligned_length ROUNDDOWN
  exact Nat.mul_mod_left _ _

lemma PAGE_ALIGN_le_add (x : Nat) : PAGE_ALIGN x ≤ x + (PAGE_SIZE - 1) := by
  unfold PAGE_ALIGN
  calc (x + (PAGE_SIZE - 1)) % U64 / PAGE_SIZE * PAGE_SIZE
      ≤ (x + (PAGE_SIZE - 1)) % U64 := Nat.div_mul_le_self _ _
    _ ≤ x + (PAGE_SIZE - 1) := Nat.mod_le _ _

lemma ROUNDDOWN_le_self (x : Nat) : ROUNDDOWN x PAGE_SIZE ≤ x :=
  Nat.div_mul_le_self _ _

lemma ROUNDDOWN_ge (x : Nat) (h : PAGE_SIZE ≤ x) : PAGE_SIZE ≤ ROUNDDOWN x PAGE_SIZE := by
  unfold ROUNDDOWN
  have h1 : 1 ≤ x / PAGE_SIZE := (Nat.one_le_div_iff (by norm_num [PAGE_SIZE])).2 h
  calc PAGE_SIZE = 1 * PAGE_SIZE := (Nat.one_mul _).symm
    _ ≤ x / PAGE_SIZE * PAGE_SIZE := Nat.mul_le_mul_right _ h1

lemma aligned_length_pos (m : memory_map_t) (h : PAGE_SIZE * 2 ≤ mmap_length m) :
    PAGE_SIZE ≤ aligned_length m := by
  unfold aligned_length
  apply ROUNDDOWN_ge
  have h1 : aligned_base m ≤ mmap_base m + (PAGE_SIZE - 1) := PAGE_ALIGN_le_add _
  have hp : 0 < PAGE_SIZE := by norm_num [PAGE_SIZE]
  split <;> omega

lemma aligned_sum_le (m : memory_map_t) (h : PAGE_SIZE * 2 ≤ mmap_length m) :
    aligned_base m + aligned_length m ≤ mmap_base m + mmap_length m := by
  have h1 : aligned_base m ≤ mmap_base m + (PAGE_SIZE - 1) := PAGE_ALIGN_le_add _
  have hp : 0 < PAGE_SIZE := by norm_num [PAGE_SIZE]
  unfold aligned_length
  have h2 := ROUNDDOWN_le_self
    (if mmap_base m < aligned_base m
     then mmap_length m - (aligned_base m - mmap_base m)
     else mmap_length m)
  revert h2
  split <;> omega

lemma parse_mmap_record_eq_some (maxRam : Nat) (m : memory_map_t) (a : pmm_arena_t) :
    parse_mmap_record maxRam m = some a ↔
      m.type = MB_MMAP_TYPE_AVAILABLE ∧ PAGE_SIZE * 2 ≤ mmap_length m ∧
      1 * MB ≤ aligned_base m ∧ aligned_base m < maxRam ∧
      a = { name := "memory", base := aligned_base m,
            size := if maxRam < (aligned_base m + aligned_length m) % U64
                    then maxRam - aligned_base m else aligned_length m,
            priority := 1, flags := PMM_ARENA_FLAG_KMAP } := by
  unfold parse_mmap_record
  split_ifs <;>
    first
      | (simp only [false_iff]
         rintro ⟨ha, hb, hc, hd, -⟩
         first
           | exact absurd ha (by assumption)
           | omega)
      | (rw [Option.some.injEq]
         constructor
         · intro hx
           refine ⟨by assumption, by omega, by omega, by omega, hx.symm⟩
         · rintro ⟨-, -, -, -, rfl⟩
           rfl)

lemma sub_mod_page (x y : Nat) (hx : x % PAGE_SIZE = 0) (hy : y % PAGE_SIZE = 0) :
    (x - y) % PAGE_SIZE = 0 := by
  simp only [PAGE_SIZE] at hx hy ⊢
  omega

lemma parse_mmap_record_invariants (maxRam : Nat) (m : memory_map_t) (a : pmm_arena_t)
    (hmod : maxRam % PAGE_SIZE = 0)
    (hovf : mmap_base m + mmap_length m < U64)
    (h : parse_mmap_record maxRam m = some a) :
    a.base % PAGE_SIZE = 0 ∧ a.size % PAGE_SIZE = 0 ∧ 1 * MB ≤ a.base ∧
    a.base + a.size ≤ maxRam ∧ 0 < a.size := by
  rcases (parse_mmap_record_eq_some maxRam m a).1 h with ⟨ht, hlen, hlo, hhi, rfl⟩
  have hsum : aligned_base m + aligned_length m < U64 :=
    lt_of_le_of_lt (aligned_sum_le m hlen) hovf
  have hmodsum : (aligned_base m + aligned_length m) % U64 =
      aligned_base m + aligned_length m := Nat.mod_eq_of_lt hsum
  have hbm := aligned_base_mod m
  have hlm := aligned_length_mod m
  have hpos := aligned_length_pos m hlen
  have hp : 0 < PAGE_SIZE := by norm_num [PAGE_SIZE]
  dsimp only
  rw [hmodsum]
  by_cases hc : maxRam < aligned_base m + aligned_length m
  · rw [if_pos hc]
    exact ⟨hbm, sub_mod_page _ _ hmod hbm, hlo, by omega, by omega⟩
  · rw [if_neg hc]
    exact ⟨hbm, hlm, hlo, by omega, by omega⟩

lemma parse_mmap_loop_eq_take (maxRam : Nat) (ms : List memory_map_t) (found : Nat)
    (h : found < NUM_ARENAS) :
    parse_mmap_loop maxRam ms found =
      (surviving_arenas maxRam ms).take (NUM_ARENAS - found) := by
  induction ms generalizing found with
  | nil => simp [parse_mmap_loop, surviving_arenas]
  | cons m ms ih =>
    unfold parse_mmap_loop
    cases hr : parse_mmap_record maxRam m with
    | none =>
      simp only [surviving_arenas, List.filterMap_cons, hr]
      exact ih found h
    | some a =>
      simp only [surviving_arenas, List.filterMap_cons, hr]
      by_cases hf : found + 1 = NUM_ARENAS
      · rw [if_pos hf]
        have hn : NUM_ARENAS - found = 1 := by omega
        rw [hn, List.take_succ_cons, List.take_zero]
      · rw [if_neg hf]
        have h2 : found + 1 < NUM_ARENAS := by
          simp only [NUM_ARENAS] at *
          omega
        rw [ih (found + 1) h2]
        have hn : NUM_ARENAS - found = (NUM_ARENAS - (found + 1)) + 1 := by omega
        rw [hn, List.take_succ_cons]
        rfl

lemma mem_parse_loop (maxRam : Nat) (ms : List memory_map_t) (a : pmm_arena_t)
    (h : a ∈ parse_mmap_loop maxRam ms 0) :
    ∃ m ∈ ms, parse_mmap_record maxRam m = some a := by
  rw [parse_mmap_loop_eq_take maxRam ms 0 (by norm_num [NUM_ARENAS])] at h
  have h2 : a ∈ surviving_arenas maxRam ms := List.mem_of_mem_take h
  exact List.mem_filterMap.1 h2

lemma register_arenas_spec (l : List pmm_arena_t) :
    (platform_register_arenas l).add_arena_calls = l ∧
    (platform_register_arenas l).total_mem = total_size l % U64 := by
  unfold platform_register_arenas
  suffices h : ∀ s : pmm_state, s.total_mem < U64 →
      (l.foldl
        (fun s a =>
          let s2 := pmm_add_arena s a
          { s2 with total_mem := (s2.total_mem + a.size) % U64 }) s).add_arena_calls =
        s.add_arena_calls ++ l ∧
      (l.foldl
        (fun s a =>
          let s2 := pmm_add_arena s a
          { s2 with total_mem := (s2.total_mem + a.size) % U64 }) s).total_mem =
        (s.total_mem + total_size l) % U64 by
    have h0 : (0 : Nat) < U64 := by norm_num [U64]
    rcases h { add_arena_calls := [], total_mem := 0 } h0 with ⟨hc, ht⟩
    refine ⟨by simpa using hc, by simpa using ht⟩
  induction l with
  | nil =>
    intro s hs
    simp [total_size, Nat.mod_eq_of_lt hs]
  | cons a l ih =>
    intro s hs
    simp only [List.foldl_cons]
    have hlt : ((pmm_add_arena s a).total_mem + a.size) % U64 < U64 :=
      Nat.mod_lt _ (by norm_num [U64])
    rcases ih { add_arena_calls := (pmm_add_arena s a).add_arena_calls,
                total_mem := ((pmm_add_arena s a).total_mem + a.size) % U64 } hlt with ⟨hc, ht⟩
    constructor
    · rw [hc]
      simp [pmm_add_arena]
    · rw [ht]
      simp only [pmm_add_arena, total_size, List.map_cons, List.sum_cons]
      rw [Nat.mod_add_mod]
      ring_nf

/-- The spec section 8 example record: 31 MiB of available RAM at 1 MiB. -/
def example_record_31MB : memory_map_t :=
  { base_addr_low := 0x100000, base_addr_high := 0, length_low := 0x1F00000,
    length_high := 0, type := 1 }

/-- Record whose assembled 64-bit length is 0xFFFFFFFFFFFFFFFF: the uint64_t
sum `end = base + length` at platform.c line 152 wraps around, so the clip
test at line 153 does not fire. -/
def overflow_record : memory_map_t :=
  { base_addr_low := 0x100000, base_addr_high := 0, length_low := 0xFFFFFFFF,
    length_high := 0xFFFFFFFF, type := 1 }

/-- Record at 1 MiB whose length is exactly 64 GiB: its end exceeds the
x86-64 ceiling without any 64-bit overflow, so it is clipped. -/
def tall_record : memory_map_t :=
  { base_addr_low := 0x100000, base_addr_high := 0, length_low := 0,
    length_high := 16, type := 1 }

/-- Record with an unaligned base (1 MiB + 0x100) and length 0x3000. -/
def unaligned_record : memory_map_t :=
  { base_addr_low := 0x100100, base_addr_high := 0, length_low := 0x3000,
    length_high := 0, type := 1 }

/-- Multiboot info carrying seventeen copies of the 31 MiB example record:
more surviving candidates than the 16-slot registry can hold. -/
def seventeen_records : multiboot_info_t :=
  { has_mem_size := false, has_mmap := true, has_framebuffer := false,
    mmap := List.replicate 17 example_record_31MB }

/-- C9: for every 32-bit cluster value c, is_eof_cluster c returns true if
and only if 0x0FFFFFF8 ≤ c ≤ 0x0FFFFFFF. -/
theorem is_eof_cluster_iff (c : Nat) (h : c < 2 ^ 32) :
    is_eof_cluster c = true ↔ 0x0FFFFFF8 ≤ c ∧ c ≤ 0x0FFFFFFF := by
  unfold is_eof_cluster EOF_CLUSTER_BASE EOF_CLUSTER
  simp

/-- Witness for C9 at the concrete cluster value 0x0FFFFFF8. -/
theorem is_eof_cluster_iff_witness :
    (0x0FFFFFF8 : Nat) < 2 ^ 32 ∧
    (is_eof_cluster 0x0FFFFFF8 = true ↔
      (0x0FFFFFF8 : Nat) ≤ 0x0FFFFFF8 ∧ (0x0FFFFFF8 : Nat) ≤ 0x0FFFFFFF) :=
  ⟨by norm_num, is_eof_cluster_iff 0x0FFFFFF8 (by norm_num)⟩

/-- C5: an Available record contributes zero arenas iff its length is below
two pages, or its page-aligned-up base is below 1 MiB, or that base is at or
above the ceiling; otherwise it contributes exactly one arena.  In
particular the record at base 0 with length 0x9FC00 contributes none. -/
theorem record_filter_iff (maxRam : Nat) (m : memory_map_t)
    (hav : m.type = MB_MMAP_TYPE_AVAILABLE) :
    (parse_mmap_record maxRam m = none ↔
      (mmap_length m < PAGE_SIZE * 2 ∨ aligned_base m < 1 * MB ∨
       maxRam ≤ aligned_base m)) ∧
    ((¬ (mmap_length m < PAGE_SIZE * 2 ∨ aligned_base m < 1 * MB ∨
        maxRam ≤ aligned_base m)) →
      (parse_mmap_record maxRam m).isSome = true) ∧
    parse_mmap_record maxRam
      { base_addr_low := 0, base_addr_high := 0,
        length_low := 0x9FC00, length_high := 0, type := 1 } = none := by
  have hiff : parse_mmap_record maxRam m = none ↔
      (mmap_length m < PAGE_SIZE * 2 ∨ aligned_base m < 1 * MB ∨
       maxRam ≤ aligned_base m) := by
    unfold parse_mmap_record
    rw [if_pos hav]
    split_ifs with h2 h3 h4 <;> simp_all
  refine ⟨hiff, ?_, ?_⟩
  · intro hn
    cases hp : parse_mmap_record maxRam m with
    | none => exact absurd (hiff.1 hp) hn
    | some a => rfl
  · unfold parse_mmap_record
    norm_num [mmap_length, mmap_base, aligned_base, PAGE_ALIGN, PAGE_SIZE, MB,
      U64, MB_MMAP_TYPE_AVAILABLE]

/-- Witness for C5 at the concrete 31 MiB record and the x86-64 ceiling. -/
theorem record_filter_iff_witness :
    example_record_31MB.type = MB_MMAP_TYPE_AVAILABLE ∧
    parse_mmap_record MAX_PHYSICAL_RAM_X86_64
      { base_addr_low := 0, base_addr_high := 0,
        length_low := 0x9FC00, length_high := 0, type := 1 } = none :=
  ⟨rfl, (record_filter_iff MAX_PHYSICAL_RAM_X86_64 example_record_31MB rfl).2.2⟩

/-- C3 as stated is refuted by overflow_record: its page-aligned base
(1 MiB) is strictly below the 64 GiB ceiling and base + length is far above
the ceiling, yet the emitted arena is not truncated — its end is not the
ceiling, it lies far beyond it (the uint64_t clip comparison wrapped). -/
theorem clip_counterexample :
    MAX_PHYSICAL_RAM_X86_64 <
      aligned_base overflow_record + aligned_length overflow_record ∧
    aligned_base overflow_record < MAX_PHYSICAL_RAM_X86_64 ∧
    parse_mmap_record MAX_PHYSICAL_RAM_X86_64 overflow_record =
      some { name := "memory", base := 0x100000, size := 18446744073709547520,
             priority := 1, flags := PMM_ARENA_FLAG_KMAP } ∧
    0x100000 + 18446744073709547520 ≠ MAX_PHYSICAL_RAM_X86_64 ∧
    MAX_PHYSICAL_RAM_X86_64 < 0x100000 + 18446744073709547520 :=
  ⟨by decide, by decide, by decide, by decide, by decide⟩

/-- C3 (amended): for an Available record that passes the earlier filters,
whose page-aligned base is below the ceiling, and whose 64-bit base + length
does not overflow, if base + length exceeds the ceiling then the emitted
arena is truncated so that base + size equals the ceiling exactly. -/
theorem clip_to_ceiling (maxRam : Nat) (m : memory_map_t)
    (hav : m.type = MB_MMAP_TYPE_AVAILABLE)
    (hlen : PAGE_SIZE * 2 ≤ mmap_length m)
    (hovf : mmap_base m + mmap_length m < U64)
    (hlo : 1 * MB ≤ aligned_base m)
    (hhi : aligned_base m < maxRam)
    (hclip : maxRam < aligned_base m + aligned_length m) :
    parse_mmap_record maxRam m =
      some { name := "memory", base := aligned_base m,
             size := maxRam - aligned_base m, priority := 1,
             flags := PMM_ARENA_FLAG_KMAP } ∧
    aligned_base m + (maxRam - aligned_base m) = maxRam := by
  have hsum : aligned_base m + aligned_length m < U64 :=
    lt_of_le_of_lt (aligned_sum_le m hlen) hovf
  have hmodsum : (aligned_base m + aligned_length m) % U64 =
      aligned_base m + aligned_length m := Nat.mod_eq_of_lt hsum
  constructor
  · rw [parse_mmap_record_eq_some]
    refine ⟨hav, hlen, hlo, hhi, ?_⟩
    rw [hmodsum, if_pos hclip]
  · omega

/-- Witness for C3 (amended) at the 64 GiB record starting at 1 MiB. -/
theorem clip_to_ceiling_witness :
    parse_mmap_record MAX_PHYSICAL_RAM_X86_64 tall_record =
      some { name := "memory", base := aligned_base tall_record,
             size := MAX_PHYSICAL_RAM_X86_64 - aligned_base tall_record,
             priority := 1, flags := PMM_ARENA_FLAG_KMAP } ∧
    aligned_base tall_record +
      (MAX_PHYSICAL_RAM_X86_64 - aligned_base tall_record) =
      MAX_PHYSICAL_RAM_X86_64 :=
  clip_to_ceiling MAX_PHYSICAL_RAM_X86_64 tall_record rfl (by decide) (by decide)
    (by decide) (by decide) (by decide)

/-- C1 as stated is refuted: from overflow_record the pipeline emits an
arena whose base + size (about 2^64) is far above the 64 GiB ceiling. -/
theorem arena_invariant_counterexample :
    (platform_early_init MAX_PHYSICAL_RAM_X86_64 0
      (some { has_mem_size := false, has_mmap := true, has_framebuffer := false,
              mmap := [overflow_record] })).arenas =
      [{ name := "memory", base := 0x100000, size := 18446744073709547520,
         priority := 1, flags := PMM_ARENA_FLAG_KMAP }] ∧
    ¬ (0x100000 + 18446744073709547520 ≤ MAX_PHYSICAL_RAM_X86_64) :=
  ⟨by decide, by decide⟩

/-- C1 (amended): when no record's 64-bit base + length overflows, and the
platform base address is page-aligned, at least 1 MiB, and leaves room for
the 16 MiB default arena below the ceiling, every arena produced by the
pipeline (filtered or default) is page-aligned in base and size, starts at
or above 1 MiB, ends at or below the ceiling, and has positive size. -/
theorem arena_invariants_hold
    (maxRam membase : Nat) (mbi : Option multiboot_info_t)
    (hram : maxRam = MAX_PHYSICAL_RAM_X86_64 ∨ maxRam = MAX_PHYSICAL_RAM_X86_32)
    (hovf : ∀ info, mbi = some info → ∀ m ∈ info.mmap,
      mmap_base m + mmap_length m < U64)
    (hmb1 : membase % PAGE_SIZE = 0) (hmb2 : 1 * MB ≤ membase)
    (hmb3 : membase + DEFAULT_MEMEND ≤ maxRam) :
    ∀ a ∈ (platform_early_init maxRam membase mbi).arenas,
      a.base % PAGE_SIZE = 0 ∧ a.size % PAGE_SIZE = 0 ∧ 1 * MB ≤ a.base ∧
      a.base + a.size ≤ maxRam ∧ 0 < a.size := by
  have hmod : maxRam % PAGE_SIZE = 0 := by
    rcases hram with rfl | rfl <;>
      norm_num [MAX_PHYSICAL_RAM_X86_64, MAX_PHYSICAL_RAM_X86_32, GB, PAGE_SIZE]
  intro a ha
  simp only [platform_early_init] at ha
  by_cases h0 : (platform_parse_multiboot_info maxRam mbi).length = 0
  · rw [if_pos h0] at ha
    simp only [List.mem_singleton] at ha
    subst ha
    refine ⟨hmb1, ?_, hmb2, hmb3, ?_⟩ <;>
      norm_num [default_arena, DEFAULT_MEMEND, PAGE_SIZE]
  · rw [if_neg h0] at ha
    cases mbi with
    | none => simp [platform_parse_multiboot_info] at h0
    | some info =>
      simp only [platform_parse_multiboot_info] at ha h0
      by_cases hm : info.has_mmap
      · rw [if_pos hm] at ha
        rcases mem_parse_loop maxRam info.mmap a ha with ⟨m, hmem, hrec⟩
        exact parse_mmap_record_invariants maxRam m a hmod (hovf info rfl m hmem) hrec
      · rw [if_neg hm] at h0
        simp at h0

/-- Witness for C1 (amended): null boot info with platform base 1 MiB on
x86-64; the default arena satisfies all five invariants. -/
theorem arena_invariants_hold_witness :
    (default_arena (1 * MB)).base % PAGE_SIZE = 0 ∧
    (default_arena (1 * MB)).size % PAGE_SIZE = 0 ∧
    1 * MB ≤ (default_arena (1 * MB)).base ∧
    (default_arena (1 * MB)).base + (default_arena (1 * MB)).size ≤
      MAX_PHYSICAL_RAM_X86_64 ∧
    0 < (default_arena (1 * MB)).size :=
  arena_invariants_hold MAX_PHYSICAL_RAM_X86_64 (1 * MB) none (Or.inl rfl)
    (fun _ hinfo => Option.noConfusion hinfo) (by decide) (by decide) (by decide)
    (default_arena (1 * MB)) (by decide)

/-- C2: if the multiboot pointer is null, or the info has no memory map, or
no record survives filtering, exactly one synthetic default arena
(name "memory", platform base, 16 MiB, priority 1, kernel-mapped flag) is
produced and the warning path is taken; and the pipeline returns a
non-empty arena list on every input. -/
theorem default_arena_fallback
    (maxRam membase : Nat) (mbi : Option multiboot_info_t)
    (h : mbi = none ∨ ∃ info, mbi = some info ∧
      (info.has_mmap = false ∨ surviving_arenas maxRam info.mmap = [])) :
    (platform_early_init maxRam membase mbi).arenas = [default_arena membase] ∧
    (platform_early_init maxRam membase mbi).used_default = true ∧
    ∀ mbi2 : Option multiboot_info_t,
      (platform_early_init maxRam membase mbi2).arenas ≠ [] := by
  have hempty : platform_parse_multiboot_info maxRam mbi = [] := by
    rcases h with rfl | ⟨info, rfl, hcase⟩
    · rfl
    · rcases hcase with hm | hs
      · simp [platform_parse_multiboot_info, hm]
      · simp only [platform_parse_multiboot_info]
        split
        · rw [parse_mmap_loop_eq_take _ _ 0 (by norm_num [NUM_ARENAS]), hs]
          simp
        · rfl
  refine ⟨?_, ?_, ?_⟩
  · simp [platform_early_init, hempty]
  · simp [platform_early_init, hempty]
  · intro mbi2
    simp only [platform_early_init]
    by_cases h2 : (platform_parse_multiboot_info maxRam mbi2).length = 0
    · simp [h2]
    · rw [if_neg h2]
      intro hnil
      exact h2 (by rw [hnil]; rfl)

/-- Witness for C2: null boot info yields exactly the default arena with the
warning, and an info without a memory map still yields a non-empty list. -/
theorem default_arena_fallback_witness :
    (platform_early_init MAX_PHYSICAL_RAM_X86_64 0 none).arenas =
      [default_arena 0] ∧
    (platform_early_init MAX_PHYSICAL_RAM_X86_64 0 none).used_default = true ∧
    (platform_early_init MAX_PHYSICAL_RAM_X86_64 0
      (some { has_mem_size := false, has_mmap := false, has_framebuffer := false,
              mmap := [] })).arenas ≠ [] := by
  have h := default_arena_fallback MAX_PHYSICAL_RAM_X86_64 0 none (Or.inl rfl)
  exact ⟨h.1, h.2.1,
    h.2.2 (some { has_mem_size := false, has_mmap := false,
                  has_framebuffer := false, mmap := [] })⟩

/-- C4: with more than 16 surviving candidate records, the builder emits
exactly 16 arenas — the first 16 in input order — and appending further
records to the memory map leaves the output unchanged (the loop broke at
the 16th arena). -/
theorem capacity_truncation (maxRam : Nat) (info : multiboot_info_t)
    (hm : info.has_mmap = true)
    (h : NUM_ARENAS < (surviving_arenas maxRam info.mmap).length) :
    (platform_parse_multiboot_info maxRam (some info)).length = NUM_ARENAS ∧
    platform_parse_multiboot_info maxRam (some info) =
      (surviving_arenas maxRam info.mmap).take NUM_ARENAS ∧
    ∀ extra : List memory_map_t,
      platform_parse_multiboot_info maxRam
        (some { info with mmap := info.mmap ++ extra }) =
      platform_parse_multiboot_info maxRam (some info) := by
  have htake : ∀ ms : List memory_map_t, parse_mmap_loop maxRam ms 0 =
      (surviving_arenas maxRam ms).take NUM_ARENAS := by
    intro ms
    rw [parse_mmap_loop_eq_take maxRam ms 0 (by norm_num [NUM_ARENAS])]
    norm_num
  have hparse : platform_parse_multiboot_info maxRam (some info) =
      (surviving_arenas maxRam info.mmap).take NUM_ARENAS := by
    simp [platform_parse_multiboot_info, hm, htake info.mmap]
  refine ⟨?_, hparse, ?_⟩
  · rw [hparse, List.length_take]
    omega
  · intro extra
    have hm2 : ({ info with mmap := info.mmap ++ extra } :
        multiboot_info_t).has_mmap = true := hm
    rw [hparse]
    simp only [platform_parse_multiboot_info, hm2, if_true]
    rw [htake]
    have h2 : NUM_ARENAS ≤
        (List.filterMap (parse_mmap_record maxRam) info.mmap).length := by
      simp only [surviving_arenas] at h
      omega
    simp only [surviving_arenas, List.filterMap_append]
    rw [if_pos hm]
    exact List.take_append_of_le_length h2

/-- Witness for C4 at seventeen copies of the 31 MiB record. -/
theorem capacity_truncation_witness :
    seventeen_records.has_mmap = true ∧
    NUM_ARENAS <
      (surviving_arenas MAX_PHYSICAL_RAM_X86_64 seventeen_records.mmap).length ∧
    (platform_parse_multiboot_info MAX_PHYSICAL_RAM_X86_64
      (some seventeen_records)).length = NUM_ARENAS :=
  ⟨rfl, by decide,
   (capacity_truncation MAX_PHYSICAL_RAM_X86_64 seventeen_records rfl
     (by decide)).1⟩

/-- C6 as stated is refuted: with two overflow records the builder produces
two arenas of size 2^64 - 4096 each, and the uint64_t diagnostic total
wraps, so it does not equal the sum of the registered sizes. -/
theorem total_mem_counterexample :
    (platform_early_init MAX_PHYSICAL_RAM_X86_64 0
      (some { has_mem_size := false, has_mmap := true, has_framebuffer := false,
              mmap := [overflow_record, overflow_record] })).pmm.total_mem ≠
    total_size (platform_early_init MAX_PHYSICAL_RAM_X86_64 0
      (some { has_mem_size := false, has_mmap := true, has_framebuffer := false,
              mmap := [overflow_record, overflow_record] })).arenas := by
  decide

/-- C6 (amended): the handoff invokes pmm_add_arena exactly once per arena,
in the order produced, and the diagnostic total equals the sum of the
registered sizes reduced modulo 2^64 — hence equals the exact sum whenever
that sum fits in 64 bits. -/
theorem pmm_handoff_exact (maxRam membase : Nat)
    (mbi : Option multiboot_info_t) :
    (platform_early_init maxRam membase mbi).pmm.add_arena_calls =
      (platform_early_init maxRam membase mbi).arenas ∧
    (platform_early_init maxRam membase mbi).pmm.total_mem =
      total_size (platform_early_init maxRam membase mbi).arenas % U64 ∧
    (total_size (platform_early_init maxRam membase mbi).arenas < U64 →
      (platform_early_init maxRam membase mbi).pmm.total_mem =
        total_size (platform_early_init maxRam membase mbi).arenas) := by
  have hpmm : (platform_early_init maxRam membase mbi).pmm =
      platform_register_arenas (platform_early_init maxRam membase mbi).arenas :=
    rfl
  rw [hpmm]
  rcases register_arenas_spec (platform_early_init maxRam membase mbi).arenas
    with ⟨hc, ht⟩
  exact ⟨hc, ht, fun hlt => by rw [ht, Nat.mod_eq_of_lt hlt]⟩

/-- Witness for C6 (amended) on the null-boot-info run: one 16 MiB default
arena, whose total fits in 64 bits and is reported exactly. -/
theorem pmm_handoff_exact_witness :
    total_size (platform_early_init MAX_PHYSICAL_RAM_X86_64 0 none).arenas <
      U64 ∧
    (platform_early_init MAX_PHYSICAL_RAM_X86_64 0 none).pmm.total_mem =
      total_size (platform_early_init MAX_PHYSICAL_RAM_X86_64 0 none).arenas :=
  ⟨by decide, (pmm_handoff_exact MAX_PHYSICAL_RAM_X86_64 0 none).2.2 (by decide)⟩

/-- C10: for an Available record passing the two-page minimum length check,
the base-alignment step cannot underflow (the forward shift is strictly
below the length), the page-rounded length keeps at least one page, the
DEBUG_ASSERT(end > base) at the clip site always holds, and every emitted
arena has size at least one page. -/
theorem alignment_safety (maxRam : Nat) (m : memory_map_t)
    (hpage : maxRam % PAGE_SIZE = 0)
    (hlen : PAGE_SIZE * 2 ≤ mmap_length m) :
    (mmap_base m < aligned_base m →
      aligned_base m - mmap_base m < mmap_length m) ∧
    PAGE_SIZE ≤ aligned_length m ∧
    debug_assert_end_gt_base maxRam m = true ∧
    (∀ a, parse_mmap_record maxRam m = some a → PAGE_SIZE ≤ a.size) := by
  have h1 : aligned_base m ≤ mmap_base m + (PAGE_SIZE - 1) := PAGE_ALIGN_le_add _
  have hp : 0 < PAGE_SIZE := by norm_num [PAGE_SIZE]
  refine ⟨by omega, aligned_length_pos m hlen, ?_, ?_⟩
  · unfold debug_assert_end_gt_base
    split
    · rename_i hcond
      exact decide_eq_true hcond.2.2.2.1
    · rfl
  · intro a ha
    rcases (parse_mmap_record_eq_some maxRam m a).1 ha with ⟨-, -, -, hhi, rfl⟩
    dsimp only
    split
    · have hbm := aligned_base_mod m
      simp only [PAGE_SIZE] at hpage hbm ⊢
      omega
    · exact aligned_length_pos m hlen

/-- Witness for C10 at the unaligned record (base 0x100100, length 0x3000)
on x86-64. -/
theorem alignment_safety_witness :
    MAX_PHYSICAL_RAM_X86_64 % PAGE_SIZE = 0 ∧
    PAGE_SIZE * 2 ≤ mmap_length unaligned_record ∧
    aligned_base unaligned_record - mmap_base unaligned_record <
      mmap_length unaligned_record ∧
    PAGE_SIZE ≤ aligned_length unaligned_record ∧
    debug_assert_end_gt_base MAX_PHYSICAL_RAM_X86_64 unaligned_record = true :=
  ⟨by decide, by decide,
   (alignment_safety MAX_PHYSICAL_RAM_X86_64 unaligned_record (by decide)
     (by decide)).1 (by decide),
   (alignment_safety MAX_PHYSICAL_RAM_X86_64 unaligned_record (by decide)
     (by decide)).2.1,
   (alignment_safety MAX_PHYSICAL_RAM_X86_64 unaligned_record (by decide)
     (by decide)).2.2.1⟩

/-- Environment with PCI support compiled out. -/
def pci_world_disabled : pci_world :=
  { with_dev_bus_pci := false, acpi_lite_init_ok := false, mcfg := none,
    pci_init_ecam_ok := false, pci_init_legacy_ok := false }

/-- Environment with PCI compiled in, acpi_lite_init failing and the legacy
probe failing too. -/
def pci_world_no_acpi : pci_world :=
  { with_dev_bus_pci := true, acpi_lite_init_ok := false, mcfg := none,
    pci_init_ecam_ok := false, pci_init_legacy_ok := false }

/-- C7: in every execution, pci_bus_mgr_init is called at most once (zero
times when PCI is compiled out or when no initializer succeeded), and every
call is immediately preceded by an initializer call that returned success. -/
theorem bus_mgr_init_at_most_once (w : pci_world) :
    bus_mgr_init_count (platform_init w) ≤ 1 ∧
    (w.with_dev_bus_pci = false → platform_init w = []) ∧
    ((platform_init w).any is_successful_init = false →
      bus_mgr_init_count (platform_init w) = 0) ∧
    bus_mgr_follows_success false (platform_init w) = true := by
  rcases w with ⟨pci, acpi, mcfg, ecam, legacy⟩
  cases pci <;> cases acpi <;> cases ecam <;> cases legacy <;>
    (cases mcfg with
     | none =>
       simp [platform_init, bus_mgr_init_count, bus_mgr_follows_success,
         is_successful_init]
     | some t =>
       by_cases hl :
           sizeof_acpi_mcfg_table + sizeof_acpi_mcfg_entry ≤ t.header_length <;>
         simp [platform_init, hl, bus_mgr_init_count, bus_mgr_follows_success,
           is_successful_init])

/-- Witness for C7: with PCI compiled out, the trace is empty. -/
theorem bus_mgr_init_at_most_once_witness :
    pci_world_disabled.with_dev_bus_pci = false ∧
    platform_init pci_world_disabled = [] :=
  ⟨rfl, (bus_mgr_init_at_most_once pci_world_disabled).2.1 rfl⟩

/-- C8: with PCI compiled in, if the firmware table lookup fails, the MCFG
table is absent, or its declared length is below header + one descriptor,
then pci_init_ecam is never attempted and pci_init_legacy is attempted; and
the legacy path is attempted exactly when ECAM was not attempted or its
initializer failed. -/
theorem ecam_legacy_fallback (w : pci_world)
    (hpci : w.with_dev_bus_pci = true) :
    ((w.acpi_lite_init_ok = false ∨ w.mcfg = none ∨
       (∀ t, w.mcfg = some t →
         t.header_length < sizeof_acpi_mcfg_table + sizeof_acpi_mcfg_entry)) →
      ((platform_init w).any is_ecam_call = false ∧
       (platform_init w).any is_legacy_call = true)) ∧
    ((platform_init w).any is_legacy_call = true ↔
      ((platform_init w).any is_ecam_call = false ∨
       (platform_init w).any is_failed_ecam_call = true)) := by
  rcases w with ⟨pci, acpi, mcfg, ecam, legacy⟩
  cases pci
  · simp at hpci
  · cases acpi <;> cases ecam <;> cases legacy <;>
      (cases mcfg with
       | none =>
         simp [platform_init, is_ecam_call, is_legacy_call, is_failed_ecam_call]
       | some t =>
         by_cases hl :
             sizeof_acpi_mcfg_table + sizeof_acpi_mcfg_entry ≤
               t.header_length <;>
           simp [platform_init, hl, is_ecam_call, is_legacy_call,
             is_failed_ecam_call])

/-- Witness for C8: PCI compiled in, acpi_lite_init fails — no ECAM attempt,
legacy attempted. -/
theorem ecam_legacy_fallback_witness :
    pci_world_no_acpi.with_dev_bus_pci = true ∧
    (platform_init pci_world_no_acpi).any is_ecam_call = false ∧
    (platform_init pci_world_no_acpi).any is_legacy_call = true := by
  refine ⟨rfl, ?_, ?_⟩
  · exact ((ecam_legacy_fallback pci_world_no_acpi rfl).1 (Or.inl rfl)).1
  · exact ((ecam_legacy_fallback pci_world_no_acpi rfl).1 (Or.inl rfl)).2

end LK
